import Mathlib

/-!
Verification of the RADIUS accounting server's event pipeline.

This file shallowly embeds the parts of the Go sources that the checked
properties are about:
* `internal/models/accounting.go` — the accounting event taxonomy, its
  validation (`Validate`), store-key derivation (`GenerateRedisKey`) and
  the packet parser (`ParseRADIUSPacket`);
* the Redis notifier (`RedisNotifier`: `Subscribe`, `Unsubscribe`,
  `parseMessage`);
* the file logger (`FileLogger`: `Log`, `Close`).

Go strings are Lean `String`s; Go errors are `Option String` holding the
error message (`none` = nil error); fallible constructors return
`Except String`.  Stateful components (notifier, logger) are embedded as
explicit state-passing functions.
-/

namespace RadiusAcct

/-! ## Event taxonomy (internal/models/accounting.go) -/

/-- `AccRecordType`: RADIUS accounting record types, numbered 1,2,3 on the
wire (`iota + 1` in the source). -/
inductive AccRecordType where
  | Start
  | Stop
  | Interim
deriving DecidableEq, Repr

/-- Wire numbering of `AccRecordType` (Start=1, Stop=2, Interim=3). -/
def AccRecordType.toNat : AccRecordType → Nat
  | .Start => 1
  | .Stop => 2
  | .Interim => 3

/-- `BaseAccountingRecord`: attributes shared by every variant. -/
structure BaseAccountingRecord where
  Username : String
  NASIPAddress : String
  NASPort : Int
  AcctSessionID : String
  CallingStationID : String
  CalledStationID : String
  ClientIP : String
  Timestamp : String
deriving DecidableEq, Repr

/-- `StartRecord`: base attributes plus the framed IP address. -/
structure StartRecord where
  base : BaseAccountingRecord
  FramedIPAddress : String
deriving DecidableEq, Repr

/-- `StopRecord`: base attributes plus session time, terminate cause and
octet counters.  `SessionTime` is a Go `int`, hence `Int` here. -/
structure StopRecord where
  base : BaseAccountingRecord
  SessionTime : Int
  TerminateCause : String
  InputOctets : Nat
  OutputOctets : Nat
deriving DecidableEq, Repr

/-- `InterimRecord`: base attributes plus session time and octet counters. -/
structure InterimRecord where
  base : BaseAccountingRecord
  SessionTime : Int
  InputOctets : Nat
  OutputOctets : Nat
deriving DecidableEq, Repr

/-- The closed `AccountingEvent` variant set (the Go interface has exactly
the three implementations below). -/
inductive AccountingEvent where
  | start (r : StartRecord)
  | stop (r : StopRecord)
  | interim (r : InterimRecord)
deriving DecidableEq, Repr

/-! ## Validation -/

/-- `validateBase`: checks the four required base fields in source order,
returning the first error message (Go returns `error`, nil = `none`). -/
def validateBase (b : BaseAccountingRecord) : Option String :=
  if b.Username = "" then some "username is required"
  else if b.AcctSessionID = "" then some "acct session id is required"
  else if b.NASIPAddress = "" then some "NAS IP address is required"
  else if b.ClientIP = "" then some "client IP is required"
  else none

/-- `(*StartRecord).Validate`. -/
def StartRecord.Validate (r : StartRecord) : Option String :=
  match validateBase r.base with
  | some e => some e
  | none =>
    if r.FramedIPAddress = "" then some "framed IP address required for Start record"
    else none

/-- `(*StopRecord).Validate`.  Note the source checks `SessionTime == 0`,
not `<= 0`. -/
def StopRecord.Validate (r : StopRecord) : Option String :=
  match validateBase r.base with
  | some e => some e
  | none =>
    if r.SessionTime = 0 then some "session time required for Stop record"
    else if r.TerminateCause = "" then some "terminate cause required for Stop record"
    else none

/-- `(*InterimRecord).Validate`. -/
def InterimRecord.Validate (r : InterimRecord) : Option String :=
  match validateBase r.base with
  | some e => some e
  | none =>
    if r.SessionTime = 0 then some "session time required for Interim-Update record"
    else none

/-- Interface dispatch of `Validate`. -/
def AccountingEvent.Validate : AccountingEvent → Option String
  | .start r => r.Validate
  | .stop r => r.Validate
  | .interim r => r.Validate

/-- Interface dispatch of `GetType`. -/
def AccountingEvent.GetType : AccountingEvent → AccRecordType
  | .start _ => .Start
  | .stop _ => .Stop
  | .interim _ => .Interim

/-- The base record embedded in an event. -/
def AccountingEvent.baseOf : AccountingEvent → BaseAccountingRecord
  | .start r => r.base
  | .stop r => r.base
  | .interim r => r.base

/-! ## Store-key derivation -/

/-- `keyPrefix` in the source:
`fmt.Sprintf("radius:acct:%s:%s:%s", Username, AcctSessionID, Timestamp)`. -/
def keyBase (b : BaseAccountingRecord) : String :=
  "radius:acct:" ++ b.Username ++ ":" ++ b.AcctSessionID ++ ":" ++ b.Timestamp

/-- `(*StartRecord).GenerateRedisKey`: `"start:" + keyPrefix()`. -/
def StartRecord.GenerateRedisKey (r : StartRecord) : String :=
  "start:" ++ keyBase r.base

/-- `(*StopRecord).GenerateRedisKey`: `"stop:" + keyPrefix()`. -/
def StopRecord.GenerateRedisKey (r : StopRecord) : String :=
  "stop:" ++ keyBase r.base

/-- `(*InterimRecord).GenerateRedisKey`: `"interim:" + keyPrefix()`. -/
def InterimRecord.GenerateRedisKey (r : InterimRecord) : String :=
  "interim:" ++ keyBase r.base

/-- Interface dispatch of `GenerateRedisKey`. -/
def AccountingEvent.GenerateRedisKey : AccountingEvent → String
  | .start r => r.GenerateRedisKey
  | .stop r => r.GenerateRedisKey
  | .interim r => r.GenerateRedisKey

/-- The variant tag string of each record type, as it appears in the key. -/
def AccRecordType.tag : AccRecordType → String
  | .Start => "start"
  | .Stop => "stop"
  | .Interim => "interim"

/-! ## Packet parser (`ParseRADIUSPacket`)

The decoded-packet boundary: attribute getters on an absent attribute
yield the type's zero value (spec §6), so the fields whose absence the
claims reason about are `Option`s with a `getD`-style getter; the others
are carried directly as the getter results. -/

/-- The decoded RADIUS packet as seen through the attribute getters used
by `ParseRADIUSPacket`. -/
structure RadiusPacket where
  userName : String
  nasIPAddress : String
  nasPort : Int
  acctSessionID : String
  callingStationID : String
  calledStationID : String
  statusType : Nat
  framedIPAddress : String
  sessionTime : Int
  /-- `Acct-Terminate-Cause` attribute; `none` when absent. -/
  terminateCause : Option Nat
  inputOctets : Nat
  outputOctets : Nat
deriving DecidableEq, Repr

/-- `rfc2866.AcctTerminateCause_Get`: the attribute's numeric code, the
zero value `0` when the attribute is absent. -/
def AcctTerminateCause_Get (p : RadiusPacket) : Nat :=
  p.terminateCause.getD 0

/-- Fuelled digit accumulator (the shape of `Nat.toDigits`): prepends the
decimal digits of `n` to `acc`, most significant first. -/
def decCharsAux : Nat → Nat → List Char → List Char
  | 0, _, acc => acc
  | fuel + 1, n, acc =>
    if n < 10 then Nat.digitChar (n % 10) :: acc
    else decCharsAux fuel (n / 10) (Nat.digitChar (n % 10) :: acc)

/-- Digit list of a natural number, most significant first. -/
def decChars (n : Nat) : List Char :=
  decCharsAux (n + 1) n []

/-- Decimal string rendering: the model of Go's `fmt.Sprintf("%d", v)` for
an unsigned `v`. -/
def decString (n : Nat) : String :=
  ⟨decChars n⟩

/-- `ParseRADIUSPacket(packet, clientIP)`.  The Go function also stamps
`time.Now().UTC().Format(time.RFC3339Nano)`; that hidden clock read is the
explicit `now` argument here.  A nil packet is the `none` case. -/
def ParseRADIUSPacket (packet : Option RadiusPacket) (clientIP now : String) :
    Except String AccountingEvent :=
  match packet with
  | none => .error "packet cannot be nil"
  | some p =>
    let base : BaseAccountingRecord :=
      ⟨p.userName, p.nasIPAddress, p.nasPort, p.acctSessionID,
       p.callingStationID, p.calledStationID, clientIP, now⟩
    if p.statusType = 1 then
      .ok (.start ⟨base, p.framedIPAddress⟩)
    else if p.statusType = 2 then
      .ok (.stop ⟨base, p.sessionTime, decString (AcctTerminateCause_Get p),
                  p.inputOctets, p.outputOctets⟩)
    else if p.statusType = 3 then
      .ok (.interim ⟨base, p.sessionTime, p.inputOctets, p.outputOctets⟩)
    else
      .error ("unsupported accounting status type: " ++ decString p.statusType)

/-! ## Redis notifier (`RedisNotifier`) -/

/-- A raw pub/sub message (`redis.Message`): channel string and payload. -/
structure Message where
  channel : String
  payload : String
deriving DecidableEq, Repr

/-- A parsed storage mutation event.  The source stamps `time.Now()`;
the clock read is the explicit `timestamp` value. -/
structure StorageEvent where
  key : String
  operation : String
  timestamp : Nat
deriving DecidableEq, Repr

/-- The keyspace notification namespace marker `"__keyspace@0__:"`. -/
def nsMarker : String :=
  "__keyspace@0__:"

/-- `strings.HasPrefix s pre` (byte-level prefix test). -/
def strHasPfx (s pre : String) : Bool :=
  pre.data.isPrefixOf s.data

/-- `strings.TrimPrefix pre s`: `s` without the leading `pre` when present,
otherwise `s` unchanged. -/
def strTrimPfx (pre s : String) : String :=
  if strHasPfx s pre then ⟨s.data.drop pre.data.length⟩ else s

/-- `(*RedisNotifier).parseMessage`: nil message → nil; channel without the
namespace marker → nil; otherwise an event with the marker stripped off the
channel as key and the raw payload as operation.  `now` is the
`time.Now()` read. -/
def parseMessage (msg : Option Message) (now : Nat) : Option StorageEvent :=
  match msg with
  | none => none
  | some m =>
    if strHasPfx m.channel nsMarker then
      some ⟨strTrimPfx nsMarker m.channel, m.payload, now⟩
    else none

/-- The notifier's mutable state: `pubsub` is `none` until a successful
`Subscribe` (the Go nil pointer), then `some` of the active keyspace
patterns held by the subscription; `patterns` mirrors the source field. -/
structure RedisNotifier where
  pubsub : Option (List String)
  patterns : List String
deriving DecidableEq, Repr

/-- `NewRedisNotifier` (after a successful ping): no subscription yet. -/
def NewRedisNotifier : RedisNotifier :=
  ⟨none, []⟩

/-- Result of `Subscribe`: the updated state, the returned stream
(`none` = nil channel, `some c` = a fresh channel of capacity `c`), the
returned error, and whether a background forwarding goroutine was
started. -/
structure SubscribeResult where
  state : RedisNotifier
  chan : Option Nat
  err : Option String
  spawned : Bool
deriving DecidableEq, Repr

/-- `(*RedisNotifier).Subscribe`: an empty pattern list fails with
"no patterns provided" before anything else; otherwise the patterns are
namespaced, the subscription is installed, a buffered channel of
capacity 100 is created and the forwarding goroutine started. -/
def Subscribe (rn : RedisNotifier) (patterns : List String) : SubscribeResult :=
  if patterns.length = 0 then
    ⟨rn, none, some "no patterns provided", false⟩
  else
    let keyspacePatterns := patterns.map (fun p => nsMarker ++ p)
    ⟨⟨some keyspacePatterns, keyspacePatterns⟩, some 100, none, true⟩

/-- `(*RedisNotifier).Unsubscribe`: with no subscription (`pubsub` nil) it
fails with "not subscribed"; otherwise it namespaces the given patterns and
hands them to the pub/sub client's `PUnsubscribe`, returning its error.
The external `PUnsubscribe` is modelled from the spec: it narrows the
active pattern set by the given patterns and succeeds. -/
def Unsubscribe (rn : RedisNotifier) (ps : List String) : RedisNotifier × Option String :=
  match rn.pubsub with
  | none => (rn, some "not subscribed")
  | some active =>
    let keyspacePatterns := ps.map (fun p => nsMarker ++ p)
    (⟨some (active.filter (fun a => !keyspacePatterns.contains a)), rn.patterns⟩, none)

/-! ## File logger (`FileLogger`) -/

/-- The logger's state: the `closed` flag and the lines written so far to
the underlying file (the part of the file the component controls). -/
structure FileLogger where
  closed : Bool
  contents : List String
deriving DecidableEq, Repr

/-- `(*FileLogger).Log`: fails with "logger is closed" after `Close`,
writing nothing; otherwise appends `"<timestamp> - <message>\n"` and
flushes.  `now` is the formatted `time.Now()` read. -/
def FileLogger.Log (fl : FileLogger) (now message : String) :
    FileLogger × Option String :=
  if fl.closed then (fl, some "logger is closed")
  else (⟨fl.closed, fl.contents ++ [now ++ " - " ++ message ++ "\n"]⟩, none)

/-- `(*FileLogger).Close`: the first call marks the logger closed and
closes the file; every later call returns nil immediately. -/
def FileLogger.Close (fl : FileLogger) : FileLogger × Option String :=
  if fl.closed then (fl, none)
  else (⟨true, fl.contents⟩, none)

/-! ## Specification-side predicates -/

/-- The spec's required-field invariant for an event: the four base fields
are non-empty, and the variant-specific required fields hold (framed IP
non-empty for Start; session duration positive and terminate cause
non-empty for Stop; session duration positive for Interim). -/
def requiredFieldsOK (e : AccountingEvent) : Prop :=
  e.baseOf.Username ≠ "" ∧ e.baseOf.AcctSessionID ≠ "" ∧
  e.baseOf.NASIPAddress ≠ "" ∧ e.baseOf.ClientIP ≠ "" ∧
  match e with
  | .start r => r.FramedIPAddress ≠ ""
  | .stop r => 0 < r.SessionTime ∧ r.TerminateCause ≠ ""
  | .interim r => 0 < r.SessionTime

/-! ## Helper lemmas -/

lemma validateBase_eq_none (b : BaseAccountingRecord)
    (h1 : b.Username ≠ "") (h2 : b.AcctSessionID ≠ "")
    (h3 : b.NASIPAddress ≠ "") (h4 : b.ClientIP ≠ "") :
    validateBase b = none := by
  simp [validateBase, h1, h2, h3, h4]

lemma validateBase_first (b : BaseAccountingRecord) :
    (b.Username = "" → validateBase b = some "username is required") ∧
      (b.Username ≠ "" → b.AcctSessionID = "" →
        validateBase b = some "acct session id is required") ∧
      (b.Username ≠ "" → b.AcctSessionID ≠ "" → b.NASIPAddress = "" →
        validateBase b = some "NAS IP address is required") ∧
      (b.Username ≠ "" → b.AcctSessionID ≠ "" → b.NASIPAddress ≠ "" →
        b.ClientIP = "" → validateBase b = some "client IP is required") := by
  refine ⟨?_, ?_, ?_, ?_⟩ <;> intros <;> simp_all [validateBase]

lemma validateBase_mem (b : BaseAccountingRecord) (e : String)
    (h : validateBase b = some e) :
    e = "username is required" ∨ e = "acct session id is required" ∨
      e = "NAS IP address is required" ∨ e = "client IP is required" := by
  rw [validateBase] at h
  split_ifs at h <;> simp_all

lemma stopValidate_tc_ne (r : StopRecord) (h : r.TerminateCause ≠ "") :
    r.Validate ≠ some "terminate cause required for Stop record" := by
  rw [StopRecord.Validate]
  cases hvb : validateBase r.base with
  | none =>
    by_cases h1 : r.SessionTime = 0
    · simp [h1]
    · simp [h1, h]
  | some e =>
    rcases validateBase_mem r.base e hvb with he | he | he | he <;> subst he <;> simp

lemma Validate_of_base_err (e : AccountingEvent) (msg : String)
    (h : validateBase e.baseOf = some msg) : e.Validate = some msg := by
  cases e <;>
    simp_all [AccountingEvent.Validate, AccountingEvent.baseOf,
      StartRecord.Validate, StopRecord.Validate, InterimRecord.Validate]

lemma decCharsAux_ne_nil (fuel n : Nat) (acc : List Char) (h : acc ≠ []) :
    decCharsAux fuel n acc ≠ [] := by
  induction fuel generalizing n acc with
  | zero => simpa [decCharsAux] using h
  | succ fuel ih =>
    simp only [decCharsAux]
    split
    · simp
    · exact ih (n / 10) _ (by simp)

lemma decString_ne_empty (n : Nat) : decString n ≠ "" := by
  have h : decChars n ≠ [] := by
    simp only [decChars, decCharsAux]
    split
    · simp
    · exact decCharsAux_ne_nil _ _ _ (by simp)
  intro hEq
  exact h (by simpa using congrArg String.data hEq)

lemma strHasPfx_append (pre k : String) : strHasPfx (pre ++ k) pre = true := by
  simp [strHasPfx, String.data_append, List.isPrefixOf_iff_prefix]

lemma strTrimPfx_append (pre k : String) : strTrimPfx pre (pre ++ k) = k := by
  simp [strTrimPfx, strHasPfx_append, String.data_append, List.drop_left]

/-! ## Claims -/

/-- C1 (counterexample): the claimed key format
`radius:acct:{username}:{acct_session_id}:{timestamp}:{variant}`, with the
variant tag as the final suffix segment, is not what `GenerateRedisKey`
produces: on a concrete Start event the generated key differs from the
claimed one. -/
theorem C1_counterexample :
    (AccountingEvent.start
        ⟨⟨"testuser", "10.0.0.1", 0, "session123", "", "", "10.0.0.9",
          "2025-10-04T15:00:00Z"⟩, "192.168.1.10"⟩).GenerateRedisKey ≠
      "radius:acct:testuser:session123:2025-10-04T15:00:00Z:start" := by
  decide

/-- C1 (amended): for every accounting event variant, `GenerateRedisKey`
returns `{variant}:radius:acct:{username}:{acct_session_id}:{timestamp}`:
the variant tag (start, stop or interim) appears as the leading prefix
segment of the key, not as the final suffix segment. -/
theorem C1_key_format (e : AccountingEvent) :
    e.GenerateRedisKey =
      e.GetType.tag ++ ":" ++
        ("radius:acct:" ++ e.baseOf.Username ++ ":" ++ e.baseOf.AcctSessionID
          ++ ":" ++ e.baseOf.Timestamp) := by
  cases e <;> rfl

/-- C1 (witness). -/
theorem C1_key_format_witness :
    (AccountingEvent.stop
        ⟨⟨"u", "n", 0, "sid", "", "", "c", "ts"⟩, 7, "1", 0, 0⟩).GenerateRedisKey =
      AccRecordType.Stop.tag ++ ":" ++
        ("radius:acct:" ++ "u" ++ ":" ++ "sid" ++ ":" ++ "ts") :=
  C1_key_format (AccountingEvent.stop ⟨⟨"u", "n", 0, "sid", "", "", "c", "ts"⟩, 7, "1", 0, 0⟩)

/-- C2 (counterexample): a Stop record with a strictly negative session
duration (and all other required fields present) passes `Validate` with no
error, so "the session duration is not strictly greater than 0" is not
always rejected. -/
theorem C2_counterexample :
    (StopRecord.SessionTime
        ⟨⟨"u", "1.2.3.4", 0, "s1", "", "", "5.6.7.8", "t"⟩, -1, "1", 0, 0⟩) < 0 ∧
      (StopRecord.Validate
        ⟨⟨"u", "1.2.3.4", 0, "s1", "", "", "5.6.7.8", "t"⟩, -1, "1", 0, 0⟩) = none := by
  constructor
  · decide
  · rfl

/-- C2 (amended): for Stop and Interim records whose base fields validate,
`Validate` rejects exactly a session duration equal to 0 (for Stop, also an
empty terminate cause); a strictly negative session duration is accepted. -/
theorem C2_session_time_zero_only (s : StopRecord) (i : InterimRecord)
    (hs : validateBase s.base = none) (hi : validateBase i.base = none) :
    (s.Validate = none ↔ (s.SessionTime ≠ 0 ∧ s.TerminateCause ≠ "")) ∧
      (i.Validate = none ↔ i.SessionTime ≠ 0) := by
  constructor
  · rw [StopRecord.Validate, hs]
    by_cases h1 : s.SessionTime = 0 <;> by_cases h2 : s.TerminateCause = "" <;>
      simp [h1, h2]
  · rw [InterimRecord.Validate, hi]
    by_cases h1 : i.SessionTime = 0 <;> simp [h1]

/-- C2 (witness). -/
theorem C2_session_time_zero_only_witness :
    ((StopRecord.Validate ⟨⟨"u", "n", 0, "s1", "", "", "c", "t"⟩, -1, "1", 0, 0⟩ = none
        ↔ ((-1 : Int) ≠ 0 ∧ ("1" : String) ≠ "")) ∧
      (InterimRecord.Validate ⟨⟨"u", "n", 0, "s1", "", "", "c", "t"⟩, 0, 0, 0⟩ = none
        ↔ ((0 : Int) ≠ 0))) :=
  C2_session_time_zero_only
    ⟨⟨"u", "n", 0, "s1", "", "", "c", "t"⟩, -1, "1", 0, 0⟩
    ⟨⟨"u", "n", 0, "s1", "", "", "c", "t"⟩, 0, 0, 0⟩
    (by rfl) (by rfl)

/-- C3: for every variant, `Validate` returns no error when all the
variant's required fields are present (base fields non-empty, framed IP
non-empty for Start, durations positive, terminate cause non-empty for
Stop); and the base-field checks run first, in source order, returning an
error naming the first missing base field. -/
theorem C3_validate_required_fields (e : AccountingEvent) :
    (requiredFieldsOK e → e.Validate = none) ∧
      (e.baseOf.Username = "" → e.Validate = some "username is required") ∧
      (e.baseOf.Username ≠ "" → e.baseOf.AcctSessionID = "" →
        e.Validate = some "acct session id is required") ∧
      (e.baseOf.Username ≠ "" → e.baseOf.AcctSessionID ≠ "" →
        e.baseOf.NASIPAddress = "" →
        e.Validate = some "NAS IP address is required") ∧
      (e.baseOf.Username ≠ "" → e.baseOf.AcctSessionID ≠ "" →
        e.baseOf.NASIPAddress ≠ "" → e.baseOf.ClientIP = "" →
        e.Validate = some "client IP is required") := by
  refine ⟨?_, ?_, ?_, ?_, ?_⟩
  · intro hok
    cases e with
    | start r =>
      obtain ⟨h1, h2, h3, h4, h5⟩ := hok
      simp only [AccountingEvent.baseOf] at h1 h2 h3 h4
      simp [AccountingEvent.Validate, StartRecord.Validate,
        validateBase_eq_none r.base h1 h2 h3 h4, h5]
    | stop r =>
      obtain ⟨h1, h2, h3, h4, h5, h6⟩ := hok
      simp only [AccountingEvent.baseOf] at h1 h2 h3 h4
      simp [AccountingEvent.Validate, StopRecord.Validate,
        validateBase_eq_none r.base h1 h2 h3 h4, h6]
      omega
    | interim r =>
      obtain ⟨h1, h2, h3, h4, h5⟩ := hok
      simp only [AccountingEvent.baseOf] at h1 h2 h3 h4
      simp [AccountingEvent.Validate, InterimRecord.Validate,
        validateBase_eq_none r.base h1 h2 h3 h4]
      omega
  · intro h1
    exact Validate_of_base_err e _ ((validateBase_first e.baseOf).1 h1)
  · intro h1 h2
    exact Validate_of_base_err e _ ((validateBase_first e.baseOf).2.1 h1 h2)
  · intro h1 h2 h3
    exact Validate_of_base_err e _ ((validateBase_first e.baseOf).2.2.1 h1 h2 h3)
  · intro h1 h2 h3 h4
    exact Validate_of_base_err e _ ((validateBase_first e.baseOf).2.2.2 h1 h2 h3 h4)

/-- C3 (witness). -/
theorem C3_validate_required_fields_witness :
    (AccountingEvent.interim ⟨⟨"u", "n", 0, "s1", "", "", "c", "t"⟩, 5, 0, 0⟩).Validate
        = none ∧
      (AccountingEvent.interim ⟨⟨"", "n", 0, "s1", "", "", "c", "t"⟩, 5, 0, 0⟩).Validate
        = some "username is required" :=
  ⟨(C3_validate_required_fields
      (AccountingEvent.interim ⟨⟨"u", "n", 0, "s1", "", "", "c", "t"⟩, 5, 0, 0⟩)).1
      (by refine ⟨?_, ?_, ?_, ?_, ?_⟩ <;> decide),
    (C3_validate_required_fields
      (AccountingEvent.interim ⟨⟨"", "n", 0, "s1", "", "", "c", "t"⟩, 5, 0, 0⟩)).2.1
      (by rfl)⟩

/-- C4: a raw message whose channel does not start with the namespace
marker `__keyspace@0__:` parses to no event, whatever the payload; a
channel of the form `__keyspace@0__:` ++ k parses to an event whose key is
exactly k (the channel with the marker stripped) and whose operation is
the raw payload verbatim, including the empty payload. -/
theorem C4_parseMessage_channel (m : Message) (now : Nat) :
    (strHasPfx m.channel nsMarker = false → parseMessage (some m) now = none) ∧
      (∀ k, m.channel = nsMarker ++ k →
        parseMessage (some m) now = some ⟨k, m.payload, now⟩) := by
  constructor
  · intro h
    simp [parseMessage, h]
  · intro k hk
    simp [parseMessage, hk, strHasPfx_append, strTrimPfx_append]

/-- C4 (witness): a foreign channel is dropped; a matching channel with an
empty payload yields the stripped key and the verbatim empty operation. -/
theorem C4_parseMessage_channel_witness :
    parseMessage (some ⟨"other:channel", "set"⟩) 5 = none ∧
      parseMessage (some ⟨"__keyspace@0__:somekey", ""⟩) 7 =
        some ⟨"somekey", "", 7⟩ :=
  ⟨(C4_parseMessage_channel ⟨"other:channel", "set"⟩ 5).1 (by decide),
    (C4_parseMessage_channel ⟨"__keyspace@0__:somekey", ""⟩ 7).2 "somekey" rfl⟩

/-- C5: `GenerateRedisKey` is deterministic (the same event always yields
the same string) and a function of username, session id, timestamp and
variant only: two events of the same variant agreeing on those three
fields yield the same key, whatever their other fields. -/
theorem C5_deriveKey_pure (e₁ e₂ : AccountingEvent) :
    e₁.GenerateRedisKey = e₁.GenerateRedisKey ∧
      (e₁.GetType = e₂.GetType →
        e₁.baseOf.Username = e₂.baseOf.Username →
        e₁.baseOf.AcctSessionID = e₂.baseOf.AcctSessionID →
        e₁.baseOf.Timestamp = e₂.baseOf.Timestamp →
        e₁.GenerateRedisKey = e₂.GenerateRedisKey) := by
  refine ⟨rfl, ?_⟩
  intro ht hu hs htime
  rw [C1_key_format e₁, C1_key_format e₂, ht, hu, hs, htime]

/-- C5 (witness): two events differing in NAS port, station ids, framed IP
and counters, but agreeing on username, session id and timestamp, get the
same key. -/
theorem C5_deriveKey_pure_witness :
    (AccountingEvent.start
        ⟨⟨"u", "1.1.1.1", 1, "sid", "a", "b", "c1", "ts"⟩, "9.9.9.9"⟩).GenerateRedisKey =
      (AccountingEvent.start
        ⟨⟨"u", "2.2.2.2", 2, "sid", "x", "y", "c2", "ts"⟩, "8.8.8.8"⟩).GenerateRedisKey :=
  (C5_deriveKey_pure
      (AccountingEvent.start ⟨⟨"u", "1.1.1.1", 1, "sid", "a", "b", "c1", "ts"⟩, "9.9.9.9"⟩)
      (AccountingEvent.start ⟨⟨"u", "2.2.2.2", 2, "sid", "x", "y", "c2", "ts"⟩, "8.8.8.8"⟩)).2
    rfl rfl rfl rfl

/-- C6: after `Close` has run once, any further `Close` returns nil and
leaves the state unchanged (idempotent), and any `Log` call fails with the
"logger is closed" error, leaving the written contents untouched. -/
theorem C6_logger_close_idempotent (fl : FileLogger) (now msg : String) :
    FileLogger.Close (FileLogger.Close fl).1 = ((FileLogger.Close fl).1, none) ∧
      FileLogger.Log (FileLogger.Close fl).1 now msg =
        ((FileLogger.Close fl).1, some "logger is closed") := by
  obtain ⟨closed, contents⟩ := fl
  cases closed <;> simp [FileLogger.Close, FileLogger.Log]

/-- C7: `Subscribe` with an empty pattern list fails with the
"no patterns provided" error, returns a nil stream, leaves the state
unchanged and starts no forwarding goroutine; with a non-empty list it
returns a non-nil stream and no error, and starts the goroutine.  (A Go
nil slice has length 0, so the absent-list case is the empty list.) -/
theorem C7_subscribe_patterns (rn : RedisNotifier) (ps : List String) :
    (ps = [] → Subscribe rn ps = ⟨rn, none, some "no patterns provided", false⟩) ∧
      (ps ≠ [] → (Subscribe rn ps).chan ≠ none ∧ (Subscribe rn ps).err = none ∧
        (Subscribe rn ps).spawned = true) := by
  constructor
  · intro h
    subst h
    rfl
  · intro h
    have hl : ps.length ≠ 0 := by simpa using h
    simp [Subscribe, hl]

/-- C7 (witness). -/
theorem C7_subscribe_patterns_witness :
    Subscribe NewRedisNotifier [] =
        ⟨NewRedisNotifier, none, some "no patterns provided", false⟩ ∧
      (Subscribe NewRedisNotifier ["radius:acct:*"]).err = none :=
  ⟨(C7_subscribe_patterns NewRedisNotifier []).1 rfl,
    ((C7_subscribe_patterns NewRedisNotifier ["radius:acct:*"]).2 (by decide)).2.1⟩

/-- C8: before any successful `Subscribe` (the notifier's `pubsub` handle
is still nil, as in the fresh state `NewRedisNotifier`), `Unsubscribe`
fails with the "not subscribed" error; once subscribed, unsubscribing any
pattern list (in particular a subset of the active ones) returns no error,
and the empty list leaves the state unchanged (a no-op success). -/
theorem C8_unsubscribe_states (rn : RedisNotifier) (ps : List String) :
    (rn.pubsub = none → Unsubscribe rn ps = (rn, some "not subscribed")) ∧
      NewRedisNotifier.pubsub = none ∧
      (rn.pubsub ≠ none → (Unsubscribe rn ps).2 = none) ∧
      (rn.pubsub ≠ none → Unsubscribe rn [] = (rn, none)) := by
  refine ⟨?_, rfl, ?_, ?_⟩
  · intro h
    simp [Unsubscribe, h]
  · intro h
    obtain ⟨pubsub, patterns⟩ := rn
    cases pubsub with
    | none => exact absurd rfl h
    | some active => simp [Unsubscribe]
  · intro h
    obtain ⟨pubsub, patterns⟩ := rn
    cases pubsub with
    | none => exact absurd rfl h
    | some active => simp [Unsubscribe]

/-- C8 (witness): on the fresh notifier `Unsubscribe` fails with
"not subscribed"; on a subscribed notifier, unsubscribing a subset and
unsubscribing nothing both succeed. -/
theorem C8_unsubscribe_states_witness :
    Unsubscribe NewRedisNotifier ["a"] = (NewRedisNotifier, some "not subscribed") ∧
      (Unsubscribe ⟨some ["__keyspace@0__:a", "__keyspace@0__:b"],
        ["__keyspace@0__:a", "__keyspace@0__:b"]⟩ ["a"]).2 = none ∧
      Unsubscribe ⟨some ["__keyspace@0__:a"], ["__keyspace@0__:a"]⟩ [] =
        (⟨some ["__keyspace@0__:a"], ["__keyspace@0__:a"]⟩, none) :=
  ⟨(C8_unsubscribe_states NewRedisNotifier ["a"]).1 rfl,
    (C8_unsubscribe_states ⟨some ["__keyspace@0__:a", "__keyspace@0__:b"],
        ["__keyspace@0__:a", "__keyspace@0__:b"]⟩ ["a"]).2.2.1 (by decide),
    (C8_unsubscribe_states ⟨some ["__keyspace@0__:a"], ["__keyspace@0__:a"]⟩
        ["unused"]).2.2.2 (by decide)⟩

/-- C9: every Stop record produced by `ParseRADIUSPacket` has a non-empty
terminate cause — the decimal rendering of the attribute's code, which is
`"0"` when the attribute is absent — so `Validate`'s terminate-cause check
can never fail on a parsed record. -/
theorem C9_terminate_cause_nonempty (p : RadiusPacket) (cip now : String)
    (s : StopRecord)
    (h : ParseRADIUSPacket (some p) cip now = .ok (.stop s)) :
    s.TerminateCause ≠ "" ∧
      (p.terminateCause = none → s.TerminateCause = "0") ∧
      s.Validate ≠ some "terminate cause required for Stop record" := by
  have hs : s = ⟨⟨p.userName, p.nasIPAddress, p.nasPort, p.acctSessionID,
      p.callingStationID, p.calledStationID, cip, now⟩,
      p.sessionTime, decString (AcctTerminateCause_Get p),
      p.inputOctets, p.outputOctets⟩ := by
    rw [ParseRADIUSPacket] at h
    split_ifs at h <;> simp_all
  have hne : s.TerminateCause ≠ "" := by
    rw [hs]
    exact decString_ne_empty _
  refine ⟨hne, ?_, stopValidate_tc_ne s hne⟩
  intro habs
  rw [hs]
  show decString (AcctTerminateCause_Get p) = "0"
  rw [AcctTerminateCause_Get, habs]
  rfl

/-- C9 (witness): a Stop packet with the terminate-cause attribute absent
parses to a record whose terminate cause is the non-empty string "0". -/
theorem C9_terminate_cause_nonempty_witness :
    (⟨⟨"u", "1.1.1.1", 0, "sid", "a", "b", "cip", "now"⟩, 3, decString 0, 4, 5⟩ :
        StopRecord).TerminateCause ≠ "" ∧
      ((⟨"u", "1.1.1.1", 0, "sid", "a", "b", 2, "9.9.9.9", 3, none, 4, 5⟩ :
          RadiusPacket).terminateCause = none →
        (⟨⟨"u", "1.1.1.1", 0, "sid", "a", "b", "cip", "now"⟩, 3, decString 0, 4, 5⟩ :
          StopRecord).TerminateCause = "0") ∧
      (⟨⟨"u", "1.1.1.1", 0, "sid", "a", "b", "cip", "now"⟩, 3, decString 0, 4, 5⟩ :
        StopRecord).Validate ≠ some "terminate cause required for Stop record" :=
  C9_terminate_cause_nonempty
    ⟨"u", "1.1.1.1", 0, "sid", "a", "b", 2, "9.9.9.9", 3, none, 4, 5⟩
    "cip" "now"
    ⟨⟨"u", "1.1.1.1", 0, "sid", "a", "b", "cip", "now"⟩, 3, decString 0, 4, 5⟩
    rfl

/-- C10: `parseMessage` on a nil (absent) message returns nil: the nil
branch is taken before any field of the message is touched, so parsing is
total over the option-typed input. -/
theorem C10_parseMessage_nil (now : Nat) :
    parseMessage none now = none :=
  rfl

end RadiusAcct
